import Mathlib

/-!
Verification of the rate-limiting and performance-accounting core of the
google-ads-scraper repository, shallowly embedded from
`src/utils/rate_limiter.py` and `src/utils/performance_monitor.py`.

Python floats are modelled as exact rationals (ℚ); monotonic-clock readings
(`time.monotonic()`) and wall-clock readings (`datetime.now()`) are passed to
each operation as explicit `Rat` arguments.  Operations that can raise are
embedded with an `Except String` (or explicit result) codomain; operations
whose Python bodies have no reachable `raise` are embedded as total
functions wrapped in `Except.ok`.
-/

namespace GoogleAdsScraper

/-- Configuration for rate limiting, from the `RateLimiterConfig` dataclass. -/
structure RateLimiterConfig where
  max_requests : Int
  time_window : Int
  min_delay : Rat
  burst_size : Int
deriving DecidableEq

/-- The validation predicate enforced by `RateLimiterConfig.__post_init__`. -/
def RateLimiterConfig.Valid (c : RateLimiterConfig) : Prop :=
  0 < c.max_requests ∧ 0 < c.time_window ∧ 0 ≤ c.min_delay ∧ 0 ≤ c.burst_size

instance (c : RateLimiterConfig) : Decidable c.Valid := by
  unfold RateLimiterConfig.Valid; infer_instance

/-- Construction of a `RateLimiterConfig`: the dataclass `__post_init__`
raises `ValueError` on the first violated check, otherwise the object holds
the four field values. -/
def mkRateLimiterConfig (max_requests time_window : Int) (min_delay : Rat)
    (burst_size : Int) : Except String RateLimiterConfig :=
  if max_requests ≤ 0 then .error "max_requests must be positive"
  else if time_window ≤ 0 then .error "time_window must be positive"
  else if min_delay < 0 then .error "min_delay cannot be negative"
  else if burst_size < 0 then .error "burst_size cannot be negative"
  else .ok ⟨max_requests, time_window, min_delay, burst_size⟩

/-- Mutable state of a `RateLimiter`.  `request_history` embeds the Python
dict as an insertion-ordered association list. -/
structure RateLimiter where
  config : RateLimiterConfig
  tokens : Rat
  last_update : Rat
  request_history : List (String × Rat)
  closed : Bool
deriving DecidableEq

/-- `RateLimiter.__init__`: full bucket (`max_requests` tokens), clock read
`now`, empty history, not closed. -/
def RateLimiter.init (c : RateLimiterConfig) (now : Rat) : RateLimiter :=
  { config := c
    tokens := (c.max_requests : Rat)
    last_update := now
    request_history := []
    closed := false }

/-- `RateLimiter._refill_tokens` evaluated at monotonic instant `now`. -/
def refillTokens (rl : RateLimiter) (now : Rat) : RateLimiter :=
  let time_passed := now - rl.last_update
  let token_increment :=
    time_passed * ((rl.config.max_requests : Rat) / (rl.config.time_window : Rat))
  { rl with
    tokens := min ((rl.config.max_requests : Rat) + (rl.config.burst_size : Rat))
      (rl.tokens + token_increment)
    last_update := now }

/-- Python dict assignment `d[k] = v`: overwrite in place if the key exists
(keeping insertion order), append otherwise. -/
def histSet (h : List (String × Rat)) (k : String) (v : Rat) : List (String × Rat) :=
  if h.any (fun kv => kv.1 = k) then
    h.map (fun kv => if kv.1 = k then (k, v) else kv)
  else h ++ [(k, v)]

/-- The grant step at the end of `RateLimiter.acquire`: decrement the token
count by exactly 1 and, when a key was supplied, record the monotonic
instant against it. -/
def grantToken (rl : RateLimiter) (key : Option String) (now : Rat) : RateLimiter :=
  { rl with
    tokens := rl.tokens - 1
    request_history :=
      match key with
      | none => rl.request_history
      | some k => histSet rl.request_history k now }

/-- `RateLimiter._calculate_delay`: time to generate one token, floored by
the configured minimum spacing.  Depends only on the configuration. -/
def calculate_delay (c : RateLimiterConfig) : Rat :=
  max ((1 : Rat) / ((c.max_requests : Rat) / (c.time_window : Rat))) c.min_delay

/-- Outcome of one `acquire` call. -/
inductive AcquireResult where
  /-- The call returned normally after `waits` sleep iterations. -/
  | granted (waits : Nat) : AcquireResult
  /-- The call raised with the given message. -/
  | raised (msg : String) : AcquireResult
  /-- The caller is still suspended in the wait loop: the supplied list of
  wake-up instants was exhausted with the bucket still empty. -/
  | waiting : AcquireResult
deriving DecidableEq

/-- The `while self.tokens <= 0` wait loop of `acquire`.  `wakes` is the
sequence of monotonic instants at which the successive `asyncio.sleep`
calls return; each wake is followed by a refill.  Returns a flag telling
whether the loop exited with a positive token count, the state, the
current instant and the number of sleep iterations performed. -/
def acquireLoop : RateLimiter → Rat → Nat → List Rat → (Bool × RateLimiter × Rat × Nat)
  | rl, cur, waits, wakes =>
    if 0 < rl.tokens then (true, rl, cur, waits)
    else
      match wakes with
      | [] => (false, rl, cur, waits)
      | t :: rest => acquireLoop (refillTokens rl t) t (waits + 1) rest

/-- `RateLimiter.acquire(key)` entered at monotonic instant `now`, with the
wake instants of the wait loop drawn from `wakes`.  A closed limiter raises
immediately, before any mutation, so the returned state is the input
state unchanged. -/
def acquire (rl : RateLimiter) (now : Rat) (wakes : List Rat) (key : Option String) :
    AcquireResult × RateLimiter :=
  if rl.closed then (.raised "Rate limiter is closed", rl)
  else
    match acquireLoop (refillTokens rl now) now 0 wakes with
    | (true, rl1, cur, waits) => (.granted waits, grantToken rl1 key cur)
    | (false, rl1, _, _) => (.waiting, rl1)

/-- State transformation of `RateLimiter.cleanup_history(max_age)`: drop
history entries older than `max_age` seconds. -/
def cleanupHistoryFn (rl : RateLimiter) (now : Rat) (max_age : Rat) : RateLimiter :=
  { rl with
    request_history := rl.request_history.filter (fun kv => now - kv.2 ≤ max_age) }

/-- `RateLimiter.cleanup_history`: its body has no reachable raise and no
closed-state check, so it always returns normally. -/
def cleanup_history (rl : RateLimiter) (now : Rat) (max_age : Rat) :
    Except String RateLimiter :=
  .ok (cleanupHistoryFn rl now max_age)

/-- State transformation of `RateLimiter.close()`: on the first call prune
history entries older than 3600 seconds and set the closed flag; later
calls are no-ops. -/
def closeFn (rl : RateLimiter) (now : Rat) : RateLimiter :=
  if rl.closed then rl
  else { cleanupHistoryFn rl now 3600 with closed := true }

/-- `RateLimiter.close()`: never raises. -/
def close (rl : RateLimiter) (now : Rat) : Except String RateLimiter :=
  .ok (closeFn rl now)

/-- `RateLimiter.get_request_count(window_seconds)`: a falsy argument
(absent or 0) falls back to the configured `time_window`; the count is the
number of history entries recorded within the window.  No closed-state
check and no reachable raise. -/
def get_request_count (rl : RateLimiter) (now : Rat) (window_seconds : Option Int) :
    Except String Nat :=
  let w : Int :=
    match window_seconds with
    | none => rl.config.time_window
    | some ws => if ws = 0 then rl.config.time_window else ws
  .ok ((rl.request_history.filter (fun kv => now - kv.2 ≤ (w : Rat))).length)

/-- `RateLimiter.__aenter__`: raises on a closed limiter, otherwise returns
the limiter itself. -/
def aenter (rl : RateLimiter) : Except String RateLimiter :=
  if rl.closed then .error "Cannot enter closed rate limiter" else .ok rl

/-- Whether an `Except` value is a normal return (the call did not raise). -/
def exceptOk {α : Type} : Except String α → Bool
  | .ok _ => true
  | .error _ => false

/-- One primitive mutation of the `RateLimiter` state, as performed by the
public operations: a refill at a later monotonic instant (inside
`acquire`), a grant (the decrement-and-record step of `acquire`, which the
wait loop only reaches with a positive token count on a non-closed
limiter), a history cleanup, or a close. -/
inductive RLStep : RateLimiter → RateLimiter → Prop
  | refill {rl : RateLimiter} (now : Rat) (h : rl.last_update ≤ now) :
      RLStep rl (refillTokens rl now)
  | grant {rl : RateLimiter} (key : Option String) (now : Rat)
      (hc : rl.closed = false) (h : 0 < rl.tokens) :
      RLStep rl (grantToken rl key now)
  | cleanup {rl : RateLimiter} (now max_age : Rat) :
      RLStep rl (cleanupHistoryFn rl now max_age)
  | close {rl : RateLimiter} (now : Rat) : RLStep rl (closeFn rl now)

/-- Container for performance statistics, from the `PerformanceStats`
dataclass.  `start_time` is a wall-clock reading. -/
structure PerformanceStats where
  avg_time : Rat
  min_time : Rat
  max_time : Rat
  success_rate : Rat
  total_requests : Int
  successful_requests : Int
  requests_per_minute : Rat
  start_time : Rat
deriving DecidableEq

/-- `PerformanceStats()` built with all field defaults: every derived field
zero and `start_time` produced by the `datetime.now` default factory, i.e.
the wall-clock instant of the construction. -/
def PerformanceStats.defaults (now : Rat) : PerformanceStats :=
  { avg_time := 0, min_time := 0, max_time := 0, success_rate := 0
    total_requests := 0, successful_requests := 0, requests_per_minute := 0
    start_time := now }

/-- State of a `PerformanceMonitor`.  The two `deque(maxlen=window_size)`
sliding windows are embedded as lists holding the retained samples oldest
first. -/
structure PerformanceMonitor where
  window_size : Nat
  scrape_times : List Rat
  success_history : List Bool
  start_time : Rat
  total_requests : Int
  successful_requests : Int
  last_stats : Option PerformanceStats
deriving DecidableEq

/-- `PerformanceMonitor.__init__(window_size)` at wall-clock instant `now`. -/
def PerformanceMonitor.init (window_size : Nat) (now : Rat) : PerformanceMonitor :=
  { window_size := window_size
    scrape_times := []
    success_history := []
    start_time := now
    total_requests := 0
    successful_requests := 0
    last_stats := none }

/-- `deque.append` on a deque with `maxlen`: append on the right and, when
capacity is exceeded, evict from the left. -/
def dequeAppend {α : Type} (maxlen : Nat) (d : List α) (x : α) : List α :=
  (d ++ [x]).drop (d.length + 1 - maxlen)

/-- `PerformanceMonitor.add_scrape(duration, success)`: append to both
windows in lockstep, bump the lifetime counters, invalidate the cached
snapshot. -/
def add_scrape (pm : PerformanceMonitor) (duration : Rat) (success : Bool) :
    PerformanceMonitor :=
  { pm with
    scrape_times := dequeAppend pm.window_size pm.scrape_times duration
    success_history := dequeAppend pm.window_size pm.success_history success
    total_requests := pm.total_requests + 1
    successful_requests := pm.successful_requests + (if success then 1 else 0)
    last_stats := none }

/-- Sum of a list of rationals, as the Python builtin `sum`. -/
def listSum : List Rat → Rat
  | [] => 0
  | x :: xs => x + listSum xs

/-- `statistics.mean` over a nonempty list. -/
def listMean (l : List Rat) : Rat :=
  listSum l / (l.length : Rat)

/-- The Python builtin `min` over a nonempty list (0 as an unreachable default). -/
def listMin : List Rat → Rat
  | [] => 0
  | x :: xs => xs.foldl min x

/-- The Python builtin `max` over a nonempty list (0 as an unreachable default). -/
def listMax : List Rat → Rat
  | [] => 0
  | x :: xs => xs.foldl max x

/-- The statistics record built by the non-empty branch of
`PerformanceMonitor.get_stats()`: mean, min, max over the duration window,
success rate over the success window, counts from the lifetime counters,
throughput from the lifetime total over elapsed session minutes. -/
def computeStats (pm : PerformanceMonitor) (now : Rat) : PerformanceStats :=
  { avg_time := listMean pm.scrape_times
    min_time := listMin pm.scrape_times
    max_time := listMax pm.scrape_times
    success_rate :=
      ((pm.success_history.countP id : Nat) : Rat)
        / ((pm.success_history.length : Nat) : Rat)
    total_requests := pm.total_requests
    successful_requests := pm.successful_requests
    requests_per_minute := (pm.total_requests : Rat) / max 1 ((now - pm.start_time) / 60)
    start_time := pm.start_time }

/-- `PerformanceMonitor.get_stats()` at wall-clock instant `now`: return
the cached snapshot when one exists; on an empty window return a fresh
default `PerformanceStats()` without caching it; otherwise compute the
statistics, cache and return them.  The result pairs the returned snapshot
with the post-call state. -/
def get_stats (pm : PerformanceMonitor) (now : Rat) :
    PerformanceStats × PerformanceMonitor :=
  match pm.last_stats with
  | some s => (s, pm)
  | none =>
    if pm.scrape_times.isEmpty then (PerformanceStats.defaults now, pm)
    else (computeStats pm now, { pm with last_stats := some (computeStats pm now) })

/-- Rounding of an exact value to `n` decimal digits, half to even, the
semantics of the Python builtin `round` on exactly representable values. -/
def roundHalfEven (x : Rat) : Int :=
  let f : Int := ⌊x⌋
  let r : Rat := x - (f : Rat)
  if r < 1/2 then f
  else if 1/2 < r then f + 1
  else if f % 2 = 0 then f else f + 1

/-- `round(x, n)` on an exact value. -/
def roundTo (n : Nat) (x : Rat) : Rat :=
  (roundHalfEven (x * (10 : Rat) ^ n) : Rat) / (10 : Rat) ^ n

/-- The dictionary returned by `PerformanceMonitor.get_stats_dict()`. -/
structure StatsDict where
  avg_time : Rat
  min_time : Rat
  max_time : Rat
  success_rate : Rat
  total_requests : Int
  successful_requests : Int
  requests_per_minute : Rat
  uptime_minutes : Rat
deriving DecidableEq

/-- `PerformanceMonitor.get_stats_dict()` at instant `now`: the `get_stats`
snapshot rounded for display, plus a fresh `uptime_minutes`. -/
def get_stats_dict (pm : PerformanceMonitor) (now : Rat) :
    StatsDict × PerformanceMonitor :=
  let r := get_stats pm now
  ({ avg_time := roundTo 2 r.1.avg_time
     min_time := roundTo 2 r.1.min_time
     max_time := roundTo 2 r.1.max_time
     success_rate := roundTo 1 (r.1.success_rate * 100)
     total_requests := r.1.total_requests
     successful_requests := r.1.successful_requests
     requests_per_minute := roundTo 2 r.1.requests_per_minute
     uptime_minutes := roundTo 1 ((now - r.1.start_time) / 60) }, r.2)

/-- `PerformanceMonitor.reset()` at wall-clock instant `now`. -/
def resetMonitor (pm : PerformanceMonitor) (now : Rat) : PerformanceMonitor :=
  { pm with
    scrape_times := []
    success_history := []
    start_time := now
    total_requests := 0
    successful_requests := 0
    last_stats := none }

/-- One public `PerformanceMonitor` operation, acting on the state. -/
inductive PMStep : PerformanceMonitor → PerformanceMonitor → Prop
  | add {pm : PerformanceMonitor} (duration : Rat) (success : Bool) :
      PMStep pm (add_scrape pm duration success)
  | stats {pm : PerformanceMonitor} (now : Rat) : PMStep pm (get_stats pm now).2
  | statsDict {pm : PerformanceMonitor} (now : Rat) :
      PMStep pm (get_stats_dict pm now).2
  | reset {pm : PerformanceMonitor} (now : Rat) : PMStep pm (resetMonitor pm now)

/-! ### Field computation lemmas for the RateLimiter operations -/

lemma refillTokens_tokens (rl : RateLimiter) (now : Rat) :
    (refillTokens rl now).tokens =
      min ((rl.config.max_requests : Rat) + (rl.config.burst_size : Rat))
        (rl.tokens + (now - rl.last_update) *
          ((rl.config.max_requests : Rat) / (rl.config.time_window : Rat))) := rfl

lemma refillTokens_config (rl : RateLimiter) (now : Rat) :
    (refillTokens rl now).config = rl.config := rfl

lemma refillTokens_last_update (rl : RateLimiter) (now : Rat) :
    (refillTokens rl now).last_update = now := rfl

lemma refillTokens_closed (rl : RateLimiter) (now : Rat) :
    (refillTokens rl now).closed = rl.closed := rfl

lemma grantToken_tokens (rl : RateLimiter) (key : Option String) (now : Rat) :
    (grantToken rl key now).tokens = rl.tokens - 1 := rfl

lemma grantToken_config (rl : RateLimiter) (key : Option String) (now : Rat) :
    (grantToken rl key now).config = rl.config := rfl

lemma grantToken_closed (rl : RateLimiter) (key : Option String) (now : Rat) :
    (grantToken rl key now).closed = rl.closed := rfl

lemma grantToken_last_update (rl : RateLimiter) (key : Option String) (now : Rat) :
    (grantToken rl key now).last_update = rl.last_update := rfl

lemma cleanupHistoryFn_tokens (rl : RateLimiter) (now max_age : Rat) :
    (cleanupHistoryFn rl now max_age).tokens = rl.tokens := rfl

lemma cleanupHistoryFn_config (rl : RateLimiter) (now max_age : Rat) :
    (cleanupHistoryFn rl now max_age).config = rl.config := rfl

lemma closeFn_tokens (rl : RateLimiter) (now : Rat) :
    (closeFn rl now).tokens = rl.tokens := by
  unfold closeFn; split <;> rfl

lemma closeFn_config (rl : RateLimiter) (now : Rat) :
    (closeFn rl now).config = rl.config := by
  unfold closeFn; split <;> rfl

lemma closeFn_closed (rl : RateLimiter) (now : Rat) :
    (closeFn rl now).closed = true := by
  unfold closeFn; split
  · assumption
  · rfl

/-- When no time has elapsed since the last refill and the token count is
within the ceiling, a refill leaves the token count unchanged. -/
lemma refillTokens_tokens_static (rl : RateLimiter) (t0 : Rat)
    (hu : rl.last_update = t0)
    (hceil : rl.tokens ≤ (rl.config.max_requests : Rat) + (rl.config.burst_size : Rat)) :
    (refillTokens rl t0).tokens = rl.tokens := by
  rw [refillTokens_tokens, hu, sub_self, zero_mul, add_zero, min_eq_right hceil]

/-- Every primitive rate-limiter mutation preserves the configuration and
keeps the token count strictly above -1 and at most
`max_requests + burst_size`. -/
lemma rlStep_preserves {c : RateLimiterConfig} (hv : c.Valid)
    {rl rl2 : RateLimiter} (hs : RLStep rl rl2) (hcfg : rl.config = c)
    (hlo : -1 < rl.tokens)
    (hhi : rl.tokens ≤ (c.max_requests : Rat) + (c.burst_size : Rat)) :
    rl2.config = c ∧ -1 < rl2.tokens ∧
      rl2.tokens ≤ (c.max_requests : Rat) + (c.burst_size : Rat) := by
  obtain ⟨hmr, htw, hmd, hbs⟩ := hv
  have hmrQ : (0 : Rat) < (c.max_requests : Rat) := by exact_mod_cast hmr
  have htwQ : (0 : Rat) < (c.time_window : Rat) := by exact_mod_cast htw
  have hbsQ : (0 : Rat) ≤ (c.burst_size : Rat) := by exact_mod_cast hbs
  cases hs with
  | refill now h =>
    refine ⟨by rw [refillTokens_config, hcfg], ?_, ?_⟩
    · rw [refillTokens_tokens, hcfg]
      have hinc : (0 : Rat) ≤ (now - rl.last_update) *
          ((c.max_requests : Rat) / (c.time_window : Rat)) :=
        mul_nonneg (by linarith) (le_of_lt (div_pos hmrQ htwQ))
      exact lt_min (by linarith) (by linarith)
    · rw [refillTokens_tokens, hcfg]
      exact min_le_left _ _
  | grant key now hc h =>
    refine ⟨by rw [grantToken_config, hcfg], ?_, ?_⟩
    · rw [grantToken_tokens]; linarith
    · rw [grantToken_tokens]; linarith
  | cleanup now max_age =>
    exact ⟨by rw [cleanupHistoryFn_config, hcfg],
      by rw [cleanupHistoryFn_tokens]; exact hlo,
      by rw [cleanupHistoryFn_tokens]; exact hhi⟩
  | close now =>
    exact ⟨by rw [closeFn_config, hcfg],
      by rw [closeFn_tokens]; exact hlo,
      by rw [closeFn_tokens]; exact hhi⟩

/-- C1 (amended): for every valid configuration and every state reachable
from a fresh limiter by rate-limiter operations, the token count stays in
the interval (-1, max_requests + burst_size]: the refill clamp enforces
the ceiling after arbitrarily long idle periods, while an acquire that
finds `0 < tokens <= 1` available leaves `tokens` strictly above -1 but
possibly negative after its decrement, so 0 is not a lower bound. -/
theorem tokens_stay_in_interval (c : RateLimiterConfig) (hv : c.Valid)
    (t0 : Rat) (rl : RateLimiter)
    (h : Relation.ReflTransGen RLStep (RateLimiter.init c t0) rl) :
    -1 < rl.tokens ∧ rl.tokens ≤ (c.max_requests : Rat) + (c.burst_size : Rat) := by
  have hmr : 0 < c.max_requests := hv.1
  have hbs : 0 ≤ c.burst_size := hv.2.2.2
  have hmrQ : (0 : Rat) < (c.max_requests : Rat) := by exact_mod_cast hmr
  have hbsQ : (0 : Rat) ≤ (c.burst_size : Rat) := by exact_mod_cast hbs
  have key : rl.config = c ∧ -1 < rl.tokens ∧
      rl.tokens ≤ (c.max_requests : Rat) + (c.burst_size : Rat) := by
    induction h with
    | refl => exact ⟨rfl, by simp [RateLimiter.init]; linarith,
        by simp [RateLimiter.init]; linarith⟩
    | tail hsteps hstep ih => exact rlStep_preserves hv hstep ih.1 ih.2.1 ih.2.2
  exact ⟨key.2.1, key.2.2⟩

/-- Default-like configuration used as a concrete instance. -/
def cfgD : RateLimiterConfig := ⟨10, 60, 1/10, 3⟩

/-- Witness for `tokens_stay_in_interval` at a concrete valid configuration
and the empty trace. -/
theorem tokens_stay_in_interval_witness :
    cfgD.Valid ∧
      (-1 < (RateLimiter.init cfgD 0).tokens ∧
        (RateLimiter.init cfgD 0).tokens ≤
          (cfgD.max_requests : Rat) + (cfgD.burst_size : Rat)) :=
  ⟨by refine ⟨?_, ?_, ?_, ?_⟩ <;> norm_num [cfgD],
    tokens_stay_in_interval cfgD (by refine ⟨?_, ?_, ?_, ?_⟩ <;> norm_num [cfgD]) 0
      (RateLimiter.init cfgD 0) Relation.ReflTransGen.refl⟩

/-- A valid configuration on which the claimed lower bound 0 fails. -/
def cEx1 : RateLimiterConfig := ⟨1, 2, 0, 0⟩

/-- The state reached from a fresh `cEx1` limiter by an acquire at instant
0 followed by an acquire at instant 1: the second refill accrues half a
token, the wait loop exits on `0 < 1/2`, and the decrement leaves -1/2. -/
def rlNeg : RateLimiter :=
  grantToken (refillTokens (grantToken (refillTokens (RateLimiter.init cEx1 0) 0)
    none 0) 1) none 1

/-- C1 as stated is false: `rlNeg` is reachable from a fresh limiter under
a valid configuration by legal operations, yet its token count is
negative. -/
theorem tokens_lower_bound_counterexample :
    cEx1.Valid ∧
      Relation.ReflTransGen RLStep (RateLimiter.init cEx1 0) rlNeg ∧
      rlNeg.tokens < 0 := by
  refine ⟨by refine ⟨?_, ?_, ?_, ?_⟩ <;> norm_num [cEx1], ?_,
    by norm_num [rlNeg, grantToken, refillTokens, RateLimiter.init, cEx1, min_def]⟩
  have s1 : RLStep (RateLimiter.init cEx1 0)
      (refillTokens (RateLimiter.init cEx1 0) 0) :=
    RLStep.refill 0 (by norm_num [RateLimiter.init])
  have s2 : RLStep (refillTokens (RateLimiter.init cEx1 0) 0)
      (grantToken (refillTokens (RateLimiter.init cEx1 0) 0) none 0) :=
    RLStep.grant none 0 (by rfl)
      (by norm_num [refillTokens, RateLimiter.init, cEx1, min_def])
  have s3 : RLStep (grantToken (refillTokens (RateLimiter.init cEx1 0) 0) none 0)
      (refillTokens (grantToken (refillTokens (RateLimiter.init cEx1 0) 0) none 0) 1) :=
    RLStep.refill 1
      (by norm_num [grantToken, refillTokens, RateLimiter.init])
  have s4 : RLStep
      (refillTokens (grantToken (refillTokens (RateLimiter.init cEx1 0) 0) none 0) 1)
      rlNeg :=
    RLStep.grant none 1 (by rfl)
      (by norm_num [refillTokens, grantToken, RateLimiter.init, cEx1, min_def])
  exact Relation.ReflTransGen.tail
    (Relation.ReflTransGen.tail
      (Relation.ReflTransGen.tail
        (Relation.ReflTransGen.tail Relation.ReflTransGen.refl s1) s2) s3) s4

/-- C5: on every closed limiter, every `acquire` call, with any arguments,
raises the closed-resource error immediately and returns the state
unchanged: tokens not decremented, last refill instant not advanced, and
no history entry added. -/
theorem acquire_after_close_fails (rl : RateLimiter) (h : rl.closed = true)
    (now : Rat) (wakes : List Rat) (key : Option String) :
    acquire rl now wakes key = (.raised "Rate limiter is closed", rl) := by
  simp [acquire, h]

/-- A concrete limiter that has been closed. -/
def closedEx : RateLimiter := closeFn (RateLimiter.init cfgD 0) 0

/-- Witness for `acquire_after_close_fails` on a concrete closed limiter. -/
theorem acquire_after_close_witness :
    closedEx.closed = true ∧
      acquire closedEx 5 [] none = (.raised "Rate limiter is closed", closedEx) :=
  ⟨rfl, acquire_after_close_fails closedEx rfl 5 [] none⟩

/-- C2 (amended): after `close()`, `acquire` and the context-manager entry
fail with the closed-resource error, but `get_request_count`,
`cleanup_history` and a repeated `close` still return normally: neither of
them checks the closed flag. -/
theorem closed_limiter_operations (rl : RateLimiter) (h : rl.closed = true)
    (now max_age : Rat) (wakes : List Rat) (key : Option String)
    (ws : Option Int) :
    (acquire rl now wakes key).1 = .raised "Rate limiter is closed" ∧
    aenter rl = .error "Cannot enter closed rate limiter" ∧
    exceptOk (get_request_count rl now ws) = true ∧
    exceptOk (cleanup_history rl now max_age) = true ∧
    exceptOk (close rl now) = true :=
  ⟨by simp [acquire, h], by simp [aenter, h], rfl, rfl, rfl⟩

/-- Witness for `closed_limiter_operations` on a concrete closed limiter. -/
theorem closed_limiter_operations_witness :
    closedEx.closed = true ∧
      ((acquire closedEx 5 [] none).1 = .raised "Rate limiter is closed" ∧
        aenter closedEx = .error "Cannot enter closed rate limiter" ∧
        exceptOk (get_request_count closedEx 5 none) = true ∧
        exceptOk (cleanup_history closedEx 5 3600) = true ∧
        exceptOk (close closedEx 5) = true) :=
  ⟨rfl, closed_limiter_operations closedEx rfl 5 3600 [] none none⟩

/-- C2 as stated is false: on a concrete closed limiter,
`get_request_count` and `cleanup_history` return normally instead of
raising. -/
theorem closed_operations_counterexample :
    closedEx.closed = true ∧
      exceptOk (get_request_count closedEx 5 none) = true ∧
      exceptOk (cleanup_history closedEx 5 3600) = true :=
  ⟨rfl, rfl, rfl⟩

/-- C7: `RateLimiterConfig` construction succeeds exactly when
`max_requests` and `time_window` are positive and `min_delay` and
`burst_size` are non-negative; on success the object carries exactly the
given field values, and on failure no object is produced. -/
theorem config_validation (mr tw : Int) (md : Rat) (bs : Int) :
    (exceptOk (mkRateLimiterConfig mr tw md bs) = true ↔
      (0 < mr ∧ 0 < tw ∧ 0 ≤ md ∧ 0 ≤ bs)) ∧
    (∀ cfg, mkRateLimiterConfig mr tw md bs = .ok cfg →
      cfg.max_requests = mr ∧ cfg.time_window = tw ∧
        cfg.min_delay = md ∧ cfg.burst_size = bs) := by
  constructor
  · unfold mkRateLimiterConfig
    split_ifs with h1 h2 h3 h4
    · exact iff_of_false (by simp [exceptOk])
        (fun hc => absurd hc.1 (not_lt.mpr h1))
    · exact iff_of_false (by simp [exceptOk])
        (fun hc => absurd hc.2.1 (not_lt.mpr h2))
    · exact iff_of_false (by simp [exceptOk])
        (fun hc => absurd hc.2.2.1 (not_le.mpr h3))
    · exact iff_of_false (by simp [exceptOk])
        (fun hc => absurd hc.2.2.2 (not_le.mpr h4))
    · exact iff_of_true rfl
        ⟨not_le.mp h1, not_le.mp h2, not_lt.mp h3, not_lt.mp h4⟩
  · intro cfg h
    unfold mkRateLimiterConfig at h
    split_ifs at h
    all_goals first
      | exact Except.noConfusion h
      | (injection h with h2; subst h2; exact ⟨rfl, rfl, rfl, rfl⟩)

/-- Witness for `config_validation` at a concrete valid input. -/
theorem config_validation_witness :
    mkRateLimiterConfig 10 60 (1/10) 3 = .ok ⟨10, 60, 1/10, 3⟩ ∧
      ((⟨10, 60, 1/10, 3⟩ : RateLimiterConfig).max_requests = 10 ∧
        (⟨10, 60, 1/10, 3⟩ : RateLimiterConfig).time_window = 60 ∧
        (⟨10, 60, 1/10, 3⟩ : RateLimiterConfig).min_delay = 1/10 ∧
        (⟨10, 60, 1/10, 3⟩ : RateLimiterConfig).burst_size = 3) := by
  have hmk : mkRateLimiterConfig 10 60 (1/10) 3 = .ok ⟨10, 60, 1/10, 3⟩ := by
    unfold mkRateLimiterConfig
    norm_num
  exact ⟨hmk, (config_validation 10 60 (1/10) 3).2 ⟨10, 60, 1/10, 3⟩ hmk⟩

/-- C9: calling `get_request_count` with the falsy argument 0 behaves
identically to calling it with no argument, and both count the history
entries recorded within the configured `time_window` seconds of now. -/
theorem request_count_falsy_window (rl : RateLimiter) (now : Rat) :
    get_request_count rl now (some 0) = get_request_count rl now none ∧
    get_request_count rl now none =
      .ok ((rl.request_history.filter
        (fun kv => now - kv.2 ≤ (rl.config.time_window : Rat))).length) :=
  ⟨rfl, rfl⟩

/-- An `acquire` that finds a positive token count after the initial
refill grants without entering the wait loop. -/
lemma acquire_nowait_grant (rl : RateLimiter) (t0 : Rat) (key : Option String)
    (hc : rl.closed = false) (hu : rl.last_update = t0)
    (hpos : 0 < rl.tokens)
    (hceil : rl.tokens ≤ (rl.config.max_requests : Rat) + (rl.config.burst_size : Rat)) :
    acquire rl t0 [] key = (.granted 0, grantToken (refillTokens rl t0) key t0) := by
  have ht : (refillTokens rl t0).tokens = rl.tokens :=
    refillTokens_tokens_static rl t0 hu hceil
  have hpos2 : 0 < (refillTokens rl t0).tokens := ht ▸ hpos
  simp [acquire, hc, acquireLoop, hpos2]

/-- An `acquire` whose initial refill leaves a non-positive token count
enters the wait loop and suspends. -/
lemma acquire_nowait_wait (rl : RateLimiter) (t0 : Rat) (key : Option String)
    (hc : rl.closed = false) (hzero : ¬ 0 < (refillTokens rl t0).tokens) :
    (acquire rl t0 [] key).1 = .waiting := by
  simp [acquire, hc, acquireLoop, hzero]

/-- `n` consecutive rapid `acquire()` calls at the fixed instant `t0`,
requiring each to complete with no wait-loop iteration; `none` when one of
them would suspend. -/
def rapidN (t0 : Rat) : Nat → RateLimiter → Option RateLimiter
  | 0, rl => some rl
  | Nat.succ n, rl =>
    match acquire rl t0 [] none with
    | (AcquireResult.granted 0, rl2) => rapidN t0 n rl2
    | _ => none

/-- With no elapsed time, `k` rapid acquires succeed without suspension as
long as at least `k` tokens are available, each consuming exactly one
token. -/
lemma rapidN_drains (t0 : Rat) (k : Nat) (rl : RateLimiter)
    (hc : rl.closed = false) (hu : rl.last_update = t0)
    (hk : (k : Rat) ≤ rl.tokens)
    (hceil : rl.tokens ≤ (rl.config.max_requests : Rat) + (rl.config.burst_size : Rat)) :
    ∃ rl2, rapidN t0 k rl = some rl2 ∧ rl2.tokens = rl.tokens - k ∧
      rl2.closed = false ∧ rl2.last_update = t0 ∧ rl2.config = rl.config := by
  induction k generalizing rl with
  | zero =>
    exact ⟨rl, rfl, by push_cast; ring, hc, hu, rfl⟩
  | succ k ih =>
    have hpos : 0 < rl.tokens := by
      have h1 : ((k + 1 : Nat) : Rat) ≤ rl.tokens := hk
      have h2 : (0 : Rat) < ((k + 1 : Nat) : Rat) := by positivity
      linarith
    have hacq := acquire_nowait_grant rl t0 none hc hu hpos hceil
    have h2tok : (grantToken (refillTokens rl t0) none t0).tokens = rl.tokens - 1 := by
      rw [grantToken_tokens, refillTokens_tokens_static rl t0 hu hceil]
    have h2c : (grantToken (refillTokens rl t0) none t0).closed = false := by
      rw [grantToken_closed, refillTokens_closed]; exact hc
    have h2u : (grantToken (refillTokens rl t0) none t0).last_update = t0 := by
      rw [grantToken_last_update, refillTokens_last_update]
    have h2cfg : (grantToken (refillTokens rl t0) none t0).config = rl.config := by
      rw [grantToken_config, refillTokens_config]
    have hk2 : (k : Rat) ≤ (grantToken (refillTokens rl t0) none t0).tokens := by
      rw [h2tok]
      push_cast at hk ⊢
      linarith
    have hceil2 : (grantToken (refillTokens rl t0) none t0).tokens ≤
        ((grantToken (refillTokens rl t0) none t0).config.max_requests : Rat) +
          ((grantToken (refillTokens rl t0) none t0).config.burst_size : Rat) := by
      rw [h2tok, h2cfg]; linarith
    obtain ⟨rl3, hr3, ht3, hc3, hu3, hcfg3⟩ :=
      ih (grantToken (refillTokens rl t0) none t0) h2c h2u hk2 hceil2
    refine ⟨rl3, ?_, ?_, hc3, hu3, by rw [hcfg3, h2cfg]⟩
    · show rapidN t0 (k + 1) rl = some rl3
      rw [rapidN, hacq]
      exact hr3
    · rw [ht3, h2tok]
      push_cast
      ring

/-- C3 (amended): on a fresh limiter with no elapsed time, the first
`max_requests` consecutive `acquire()` calls complete without entering the
wait loop — the bucket starts at `max_requests`, not at
`max_requests + burst_size` — and the immediately following call enters
the wait loop, whose per-iteration sleep is at least `min_delay`. -/
theorem burst_sequence_amended (c : RateLimiterConfig) (hv : c.Valid) (t0 : Rat) :
    ∃ rl2, rapidN t0 c.max_requests.toNat (RateLimiter.init c t0) = some rl2 ∧
      (acquire rl2 t0 [] none).1 = .waiting ∧
      c.min_delay ≤ calculate_delay c := by
  obtain ⟨hmr, htw, hmd, hbs⟩ := hv
  have hmrQ : (0 : Rat) < (c.max_requests : Rat) := by exact_mod_cast hmr
  have hbsQ : (0 : Rat) ≤ (c.burst_size : Rat) := by exact_mod_cast hbs
  have hti : (c.max_requests.toNat : Int) = c.max_requests :=
    Int.toNat_of_nonneg (le_of_lt hmr)
  have hcast : ((c.max_requests.toNat : Nat) : Rat) = (c.max_requests : Rat) := by
    exact_mod_cast congrArg (fun z : Int => (z : Rat)) hti
  obtain ⟨rl2, hr, htok, hc2, hu2, hcfg2⟩ :=
    rapidN_drains t0 c.max_requests.toNat (RateLimiter.init c t0) rfl rfl
      (by rw [show (RateLimiter.init c t0).tokens = (c.max_requests : Rat) from rfl,
        hcast])
      (by rw [show (RateLimiter.init c t0).tokens = (c.max_requests : Rat) from rfl,
        show (RateLimiter.init c t0).config = c from rfl]; linarith)
  refine ⟨rl2, hr, ?_, le_max_right _ _⟩
  have htok0 : rl2.tokens = 0 := by
    rw [htok, show (RateLimiter.init c t0).tokens = (c.max_requests : Rat) from rfl,
      hcast]
    ring
  have hceil2 : rl2.tokens ≤ (rl2.config.max_requests : Rat) +
      (rl2.config.burst_size : Rat) := by
    rw [htok0, hcfg2, show (RateLimiter.init c t0).config = c from rfl]
    linarith
  have hzero : ¬ 0 < (refillTokens rl2 t0).tokens := by
    rw [refillTokens_tokens_static rl2 t0 hu2 hceil2, htok0]
    norm_num
  exact acquire_nowait_wait rl2 t0 none hc2 hzero

/-- Witness for `burst_sequence_amended` at a concrete valid config. -/
theorem burst_sequence_witness :
    cfgD.Valid ∧
      (∃ rl2, rapidN 0 cfgD.max_requests.toNat (RateLimiter.init cfgD 0) = some rl2 ∧
        (acquire rl2 0 [] none).1 = .waiting ∧
        cfgD.min_delay ≤ calculate_delay cfgD) :=
  ⟨by refine ⟨?_, ?_, ?_, ?_⟩ <;> norm_num [cfgD],
    burst_sequence_amended cfgD (by refine ⟨?_, ?_, ?_, ?_⟩ <;> norm_num [cfgD]) 0⟩

/-- A valid configuration with a positive burst size. -/
def cEx3 : RateLimiterConfig := ⟨1, 60, 1/10, 3⟩

/-- C3 as stated is false: under `cEx3` (valid, `max_requests = 1`,
`burst_size = 3`) a fresh limiter cannot complete
`max_requests + burst_size = 4` rapid acquires without suspension — the
bucket starts at `max_requests = 1`, so already the second call enters the
wait loop. -/
theorem burst_sequence_counterexample :
    cEx3.Valid ∧
      rapidN 0 (cEx3.max_requests + cEx3.burst_size).toNat
        (RateLimiter.init cEx3 0) = none := by
  constructor
  · refine ⟨?_, ?_, ?_, ?_⟩ <;> norm_num [cEx3]
  · norm_num [rapidN, acquire, acquireLoop, refillTokens, grantToken,
      RateLimiter.init, cEx3, min_def]

/-! ### PerformanceMonitor lemmas -/

lemma get_stats_cached (pm : PerformanceMonitor) (now : Rat) (s : PerformanceStats)
    (h : pm.last_stats = some s) : get_stats pm now = (s, pm) := by
  unfold get_stats
  rw [h]

lemma get_stats_empty (pm : PerformanceMonitor) (now : Rat)
    (h1 : pm.last_stats = none) (h2 : pm.scrape_times = []) :
    get_stats pm now = (PerformanceStats.defaults now, pm) := by
  unfold get_stats
  rw [h1]
  simp [h2]

lemma get_stats_compute (pm : PerformanceMonitor) (now : Rat)
    (h1 : pm.last_stats = none) (h2 : pm.scrape_times ≠ []) :
    get_stats pm now =
      (computeStats pm now, { pm with last_stats := some (computeStats pm now) }) := by
  unfold get_stats
  rw [h1]
  have he : pm.scrape_times.isEmpty = false := by
    cases hst : pm.scrape_times
    · exact absurd hst h2
    · rfl
  simp [he]

lemma dequeAppend_length {α : Type} (w : Nat) (d : List α) (x : α) :
    (dequeAppend w d x).length = min w (d.length + 1) := by
  unfold dequeAppend
  rw [List.length_drop]
  simp only [List.length_append, List.length_cons, List.length_nil]
  omega

lemma dequeAppend_ne_nil {α : Type} {w : Nat} (hw : 1 ≤ w) (d : List α) (x : α) :
    dequeAppend w d x ≠ [] := by
  intro h
  have hlen := congrArg List.length h
  rw [dequeAppend_length] at hlen
  simp only [List.length_nil] at hlen
  omega

/-- C4 (amended): on an empty window with no cached snapshot, `get_stats`
returns a fresh default snapshot — all derived fields zero — whose
`start_time` is the wall-clock instant of the `get_stats` call itself (the
`datetime.now` default factory), not the session start, and does not cache
it. -/
theorem empty_window_stats (pm : PerformanceMonitor) (now : Rat)
    (h1 : pm.scrape_times = []) (h2 : pm.last_stats = none) :
    get_stats pm now = (PerformanceStats.defaults now, pm) ∧
    (get_stats pm now).1.avg_time = 0 ∧ (get_stats pm now).1.min_time = 0 ∧
    (get_stats pm now).1.max_time = 0 ∧ (get_stats pm now).1.success_rate = 0 ∧
    (get_stats pm now).1.total_requests = 0 ∧
    (get_stats pm now).1.successful_requests = 0 ∧
    (get_stats pm now).1.requests_per_minute = 0 ∧
    (get_stats pm now).1.start_time = now := by
  have h := get_stats_empty pm now h2 h1
  rw [h]
  exact ⟨rfl, rfl, rfl, rfl, rfl, rfl, rfl, rfl, rfl⟩

/-- Witness for `empty_window_stats` on a fresh monitor queried at a later
instant. -/
theorem empty_window_stats_witness :
    (PerformanceMonitor.init 100 0).scrape_times = [] ∧
      (get_stats (PerformanceMonitor.init 100 0) 5 =
          (PerformanceStats.defaults 5, PerformanceMonitor.init 100 0) ∧
        (get_stats (PerformanceMonitor.init 100 0) 5).1.avg_time = 0 ∧
        (get_stats (PerformanceMonitor.init 100 0) 5).1.min_time = 0 ∧
        (get_stats (PerformanceMonitor.init 100 0) 5).1.max_time = 0 ∧
        (get_stats (PerformanceMonitor.init 100 0) 5).1.success_rate = 0 ∧
        (get_stats (PerformanceMonitor.init 100 0) 5).1.total_requests = 0 ∧
        (get_stats (PerformanceMonitor.init 100 0) 5).1.successful_requests = 0 ∧
        (get_stats (PerformanceMonitor.init 100 0) 5).1.requests_per_minute = 0 ∧
        (get_stats (PerformanceMonitor.init 100 0) 5).1.start_time = 5) :=
  ⟨rfl, empty_window_stats (PerformanceMonitor.init 100 0) 5 rfl rfl⟩

/-- C4 as stated is false: on a fresh monitor created at instant 0 and
queried at instant 5, the returned `start_time` is 5, not the session
start 0. -/
theorem empty_stats_start_time_counterexample :
    (PerformanceMonitor.init 100 0).scrape_times = [] ∧
      (get_stats (PerformanceMonitor.init 100 0) 5).1.start_time ≠
        (PerformanceMonitor.init 100 0).start_time := by
  refine ⟨rfl, ?_⟩
  rw [get_stats_empty _ 5 rfl rfl]
  show (PerformanceStats.defaults 5).start_time ≠ (PerformanceMonitor.init 100 0).start_time
  norm_num [PerformanceStats.defaults, PerformanceMonitor.init]

/-- C6 (amended): with a nonempty duration window, two consecutive
`get_stats` calls with no intervening `add_scrape` return the identical
memoized snapshot (on an empty window each call instead builds a fresh
default snapshot stamped with its own call time, so the results coincide
only for equal call instants); and when `window_size >= 1`, on a state
whose counters cohere with its window and cache, an `add_scrape` between
two `get_stats` calls makes the second snapshot report exactly one more
`total_requests` than the first. -/
theorem stats_memoization (pm : PerformanceMonitor) (t1 t2 d : Rat) (b : Bool) :
    (pm.scrape_times ≠ [] →
      (get_stats (get_stats pm t1).2 t2).1 = (get_stats pm t1).1) ∧
    (1 ≤ pm.window_size →
      (pm.scrape_times = [] → pm.total_requests = 0) →
      (∀ s, pm.last_stats = some s → s.total_requests = pm.total_requests) →
      (get_stats (add_scrape (get_stats pm t1).2 d b) t2).1.total_requests =
        (get_stats pm t1).1.total_requests + 1) := by
  constructor
  · intro hne
    cases hls : pm.last_stats with
    | some s =>
      rw [get_stats_cached pm t1 s hls]
      show (get_stats pm t2).1 = s
      rw [get_stats_cached pm t2 s hls]
    | none =>
      rw [get_stats_compute pm t1 hls hne]
      show (get_stats { pm with last_stats := some (computeStats pm t1) } t2).1 =
        computeStats pm t1
      rw [get_stats_cached _ t2 (computeStats pm t1) rfl]
  · intro hw hcoh hcache
    have hstate : (get_stats pm t1).2.scrape_times = pm.scrape_times ∧
        (get_stats pm t1).2.window_size = pm.window_size ∧
        (get_stats pm t1).2.total_requests = pm.total_requests := by
      cases hls : pm.last_stats with
      | some s =>
        rw [get_stats_cached pm t1 s hls]
        exact ⟨rfl, rfl, rfl⟩
      | none =>
        by_cases he : pm.scrape_times = []
        · rw [get_stats_empty pm t1 hls he]
          exact ⟨rfl, rfl, rfl⟩
        · rw [get_stats_compute pm t1 hls he]
          exact ⟨rfl, rfl, rfl⟩
    have hfst : (get_stats pm t1).1.total_requests = pm.total_requests := by
      cases hls : pm.last_stats with
      | some s =>
        rw [get_stats_cached pm t1 s hls]
        exact hcache s hls
      | none =>
        by_cases he : pm.scrape_times = []
        · rw [get_stats_empty pm t1 hls he]
          show (PerformanceStats.defaults t1).total_requests = pm.total_requests
          rw [show (PerformanceStats.defaults t1).total_requests = 0 from rfl, hcoh he]
        · rw [get_stats_compute pm t1 hls he]
          rfl
    have hadd_ls : (add_scrape (get_stats pm t1).2 d b).last_stats = none := rfl
    have hadd_tot : (add_scrape (get_stats pm t1).2 d b).total_requests =
        pm.total_requests + 1 := by
      show (get_stats pm t1).2.total_requests + 1 = pm.total_requests + 1
      rw [hstate.2.2]
    have hadd_ne : (add_scrape (get_stats pm t1).2 d b).scrape_times ≠ [] := by
      show dequeAppend (get_stats pm t1).2.window_size
        (get_stats pm t1).2.scrape_times d ≠ []
      exact dequeAppend_ne_nil (by rw [hstate.2.1]; exact hw) _ _
    rw [get_stats_compute _ t2 hadd_ls hadd_ne]
    show (computeStats (add_scrape (get_stats pm t1).2 d b) t2).total_requests =
      (get_stats pm t1).1.total_requests + 1
    rw [show (computeStats (add_scrape (get_stats pm t1).2 d b) t2).total_requests =
      (add_scrape (get_stats pm t1).2 d b).total_requests from rfl, hadd_tot, hfst]

/-- A concrete monitor with one recorded sample. -/
def pmW6 : PerformanceMonitor := add_scrape (PerformanceMonitor.init 100 0) 1 true

/-- Witness for `stats_memoization` on a concrete one-sample monitor. -/
theorem stats_memoization_witness :
    ((get_stats (get_stats pmW6 0).2 1).1 = (get_stats pmW6 0).1) ∧
      ((get_stats (add_scrape (get_stats pmW6 0).2 2 false) 1).1.total_requests =
        (get_stats pmW6 0).1.total_requests + 1) :=
  ⟨(stats_memoization pmW6 0 1 2 false).1
      (by simp [pmW6, add_scrape, dequeAppend, PerformanceMonitor.init]),
    (stats_memoization pmW6 0 1 2 false).2 (by norm_num [pmW6, add_scrape,
        PerformanceMonitor.init])
      (by intro h; simp [pmW6, add_scrape, dequeAppend, PerformanceMonitor.init] at h)
      (by intro s hs; exact Option.noConfusion hs)⟩

/-- C6 as stated is false: on a fresh (empty-window) monitor created at
instant 0, a `get_stats` at instant 0 followed by a `get_stats` at instant
1 with no intervening `add_scrape` return different snapshots — each is a
fresh default stamped with its own call time, not a memoized copy. -/
theorem stats_memoization_counterexample :
    (get_stats (get_stats (PerformanceMonitor.init 100 0) 0).2 1).1 ≠
      (get_stats (PerformanceMonitor.init 100 0) 0).1 := by
  rw [get_stats_empty _ 0 rfl rfl]
  show (get_stats (PerformanceMonitor.init 100 0) 1).1 ≠ PerformanceStats.defaults 0
  rw [get_stats_empty _ 1 rfl rfl]
  show PerformanceStats.defaults 1 ≠ PerformanceStats.defaults 0
  intro h
  have h2 := congrArg PerformanceStats.start_time h
  norm_num [PerformanceStats.defaults] at h2

/-- The last `n` elements of a list (all of it when it is shorter). -/
def takeLast {α : Type} (n : Nat) (l : List α) : List α := l.drop (l.length - n)

/-- A fresh monitor after a whole sequence of `add_scrape` calls. -/
def foldPM (w : Nat) (t0 : Rat) (samples : List (Rat × Bool)) : PerformanceMonitor :=
  samples.foldl (fun p s => add_scrape p s.1 s.2) (PerformanceMonitor.init w t0)

lemma dequeAppend_takeLast {α : Type} (w : Nat) (l : List α) (x : α) :
    dequeAppend w (takeLast w l) x = takeLast w (l ++ [x]) := by
  unfold dequeAppend takeLast
  have hax : (l ++ [x]).length = l.length + 1 := by simp
  rcases le_or_lt l.length w with h | h
  · have h0 : l.length - w = 0 := by omega
    rw [h0, List.drop_zero]
    have h1 : (l ++ [x]).length - w = l.length + 1 - w := by rw [hax]
    rw [h1]
  · have hA : List.drop (l.length - w) (l ++ [x]) =
        List.drop (l.length - w) l ++ [x] :=
      List.drop_append_of_le_length (by omega)
    have hlen : (l.drop (l.length - w)).length = w := by
      rw [List.length_drop]; omega
    have h2 : (l ++ [x]).length - w = (l.length - w) + 1 := by
      rw [hax]; omega
    rw [hlen, h2, ← List.drop_drop, hA]
    have h1 : w + 1 - w = 1 := by omega
    rw [h1]

lemma takeLast_ne_nil {α : Type} {w : Nat} (hw : 1 ≤ w) {l : List α} (hl : l ≠ []) :
    takeLast w l ≠ [] := by
  unfold takeLast
  intro h
  have h1 := congrArg List.length h
  rw [List.length_drop] at h1
  simp only [List.length_nil] at h1
  have h2 : 0 < l.length := List.length_pos.mpr hl
  omega

/-- The state after a sequence of `add_scrape` calls on a fresh monitor:
the windows hold the last `w` samples, the counters count all of them, and
no snapshot is cached. -/
lemma foldPM_fields (w : Nat) (t0 : Rat) (samples : List (Rat × Bool)) :
    (foldPM w t0 samples).window_size = w ∧
    (foldPM w t0 samples).scrape_times = takeLast w (samples.map Prod.fst) ∧
    (foldPM w t0 samples).success_history = takeLast w (samples.map Prod.snd) ∧
    (foldPM w t0 samples).start_time = t0 ∧
    (foldPM w t0 samples).total_requests = (samples.length : Int) ∧
    (foldPM w t0 samples).successful_requests =
      ((samples.countP (fun s => s.2)) : Int) ∧
    (foldPM w t0 samples).last_stats = none := by
  induction samples using List.reverseRecOn with
  | nil =>
    refine ⟨rfl, ?_, ?_, rfl, rfl, rfl, rfl⟩ <;>
      simp [foldPM, takeLast, PerformanceMonitor.init]
  | append_singleton l a ih =>
    obtain ⟨ihw, ihs, ihh, iht, ihtot, ihsucc, ihls⟩ := ih
    have hfold : foldPM w t0 (l ++ [a]) = add_scrape (foldPM w t0 l) a.1 a.2 := by
      simp [foldPM, List.foldl_append]
    refine ⟨?_, ?_, ?_, ?_, ?_, ?_, ?_⟩
    · rw [hfold]
      show (foldPM w t0 l).window_size = w
      exact ihw
    · rw [hfold]
      show dequeAppend (foldPM w t0 l).window_size (foldPM w t0 l).scrape_times a.1 =
        takeLast w ((l ++ [a]).map Prod.fst)
      rw [ihw, ihs, dequeAppend_takeLast]
      simp [List.map_append]
    · rw [hfold]
      show dequeAppend (foldPM w t0 l).window_size (foldPM w t0 l).success_history a.2 =
        takeLast w ((l ++ [a]).map Prod.snd)
      rw [ihw, ihh, dequeAppend_takeLast]
      simp [List.map_append]
    · rw [hfold]
      show (foldPM w t0 l).start_time = t0
      exact iht
    · rw [hfold]
      show (foldPM w t0 l).total_requests + 1 = ((l ++ [a]).length : Int)
      rw [ihtot]
      simp only [List.length_append, List.length_cons, List.length_nil]
      push_cast
      ring
    · rw [hfold]
      show (foldPM w t0 l).successful_requests + (if a.2 then 1 else 0) =
        (((l ++ [a]).countP (fun s => s.2)) : Int)
      rw [ihsucc, List.countP_append]
      cases ha : a.2 <;>
        simp [List.countP_cons, ha]
    · rw [hfold]
      rfl

/-- C8: after any nonempty sequence of `add_scrape` calls on a fresh
monitor with capacity `w >= 1`, the two windows hold exactly the `w` most
recent samples (FIFO eviction, in lockstep), `get_stats` computes
`avg/min/max` over the retained duration window and the success rate over
the retained success window, while `total_requests` and
`successful_requests` count every sample since construction. -/
theorem sliding_window_stats (w : Nat) (hw : 1 ≤ w) (samples : List (Rat × Bool))
    (hs : samples ≠ []) (t0 now : Rat) :
    (foldPM w t0 samples).scrape_times = takeLast w (samples.map Prod.fst) ∧
    (foldPM w t0 samples).success_history = takeLast w (samples.map Prod.snd) ∧
    (get_stats (foldPM w t0 samples) now).1.avg_time =
      listMean (takeLast w (samples.map Prod.fst)) ∧
    (get_stats (foldPM w t0 samples) now).1.min_time =
      listMin (takeLast w (samples.map Prod.fst)) ∧
    (get_stats (foldPM w t0 samples) now).1.max_time =
      listMax (takeLast w (samples.map Prod.fst)) ∧
    (get_stats (foldPM w t0 samples) now).1.success_rate =
      (((takeLast w (samples.map Prod.snd)).countP id : Nat) : Rat) /
        (((takeLast w (samples.map Prod.snd)).length : Nat) : Rat) ∧
    (get_stats (foldPM w t0 samples) now).1.total_requests = (samples.length : Int) ∧
    (get_stats (foldPM w t0 samples) now).1.successful_requests =
      ((samples.countP (fun s => s.2)) : Int) := by
  obtain ⟨hw2, hst, hsh, htime, htot, hsucc, hls⟩ := foldPM_fields w t0 samples
  have hmapne : samples.map Prod.fst ≠ [] := by
    intro hcon
    exact hs (List.map_eq_nil_iff.mp hcon)
  have hne : (foldPM w t0 samples).scrape_times ≠ [] := by
    rw [hst]
    exact takeLast_ne_nil hw hmapne
  rw [get_stats_compute _ now hls hne]
  refine ⟨hst, hsh, ?_, ?_, ?_, ?_, ?_, ?_⟩
  · show listMean (foldPM w t0 samples).scrape_times = _
    rw [hst]
  · show listMin (foldPM w t0 samples).scrape_times = _
    rw [hst]
  · show listMax (foldPM w t0 samples).scrape_times = _
    rw [hst]
  · show (((foldPM w t0 samples).success_history.countP id : Nat) : Rat) /
      (((foldPM w t0 samples).success_history.length : Nat) : Rat) = _
    rw [hsh]
  · show (foldPM w t0 samples).total_requests = _
    exact htot
  · show (foldPM w t0 samples).successful_requests = _
    exact hsucc

/-- The three samples of the worked example in the spec. -/
def samplesEx8 : List (Rat × Bool) := [(1, true), (3, false), (2, true)]

/-- Witness for `sliding_window_stats` on the worked example: the derived
values are avg 2, min 1, max 3, success rate 2/3, totals 3 and 2. -/
theorem sliding_window_stats_witness :
    ((foldPM 3 0 samplesEx8).scrape_times = takeLast 3 (samplesEx8.map Prod.fst) ∧
      (foldPM 3 0 samplesEx8).success_history = takeLast 3 (samplesEx8.map Prod.snd) ∧
      (get_stats (foldPM 3 0 samplesEx8) 0).1.avg_time =
        listMean (takeLast 3 (samplesEx8.map Prod.fst)) ∧
      (get_stats (foldPM 3 0 samplesEx8) 0).1.min_time =
        listMin (takeLast 3 (samplesEx8.map Prod.fst)) ∧
      (get_stats (foldPM 3 0 samplesEx8) 0).1.max_time =
        listMax (takeLast 3 (samplesEx8.map Prod.fst)) ∧
      (get_stats (foldPM 3 0 samplesEx8) 0).1.success_rate =
        (((takeLast 3 (samplesEx8.map Prod.snd)).countP id : Nat) : Rat) /
          (((takeLast 3 (samplesEx8.map Prod.snd)).length : Nat) : Rat) ∧
      (get_stats (foldPM 3 0 samplesEx8) 0).1.total_requests =
        ((samplesEx8.length : Nat) : Int) ∧
      (get_stats (foldPM 3 0 samplesEx8) 0).1.successful_requests =
        ((samplesEx8.countP (fun s => s.2) : Nat) : Int)) ∧
    (listMean (takeLast 3 (samplesEx8.map Prod.fst)) = 2 ∧
      listMin (takeLast 3 (samplesEx8.map Prod.fst)) = 1 ∧
      listMax (takeLast 3 (samplesEx8.map Prod.fst)) = 3 ∧
      (((takeLast 3 (samplesEx8.map Prod.snd)).countP id : Nat) : Rat) /
        (((takeLast 3 (samplesEx8.map Prod.snd)).length : Nat) : Rat) = 2/3 ∧
      ((samplesEx8.length : Nat) : Int) = 3 ∧
      ((samplesEx8.countP (fun s => s.2) : Nat) : Int) = 2) := by
  constructor
  · exact sliding_window_stats 3 (by norm_num) samplesEx8 (by simp [samplesEx8]) 0 0
  · refine ⟨?_, ?_, ?_, ?_, ?_, ?_⟩ <;>
      norm_num [samplesEx8, takeLast, listMean, listSum, listMin, listMax,
        List.countP_cons, min_def, max_def]

/-- State effect of `get_stats`: everything except the cache field is
unchanged. -/
lemma get_stats_snd_fields (pm : PerformanceMonitor) (now : Rat) :
    (get_stats pm now).2.window_size = pm.window_size ∧
    (get_stats pm now).2.scrape_times = pm.scrape_times ∧
    (get_stats pm now).2.success_history = pm.success_history ∧
    (get_stats pm now).2.total_requests = pm.total_requests ∧
    (get_stats pm now).2.successful_requests = pm.successful_requests := by
  cases hls : pm.last_stats with
  | some s =>
    rw [get_stats_cached pm now s hls]
    exact ⟨rfl, rfl, rfl, rfl, rfl⟩
  | none =>
    by_cases he : pm.scrape_times = []
    · rw [get_stats_empty pm now hls he]
      exact ⟨rfl, rfl, rfl, rfl, rfl⟩
    · rw [get_stats_compute pm now hls he]
      exact ⟨rfl, rfl, rfl, rfl, rfl⟩

/-- Every public monitor operation preserves the counter and window
invariants. -/
lemma pmStep_preserves {pm pm2 : PerformanceMonitor} (hs : PMStep pm pm2)
    (h1 : 0 ≤ pm.successful_requests)
    (h2 : pm.successful_requests ≤ pm.total_requests)
    (h3 : pm.scrape_times.length = pm.success_history.length)
    (h4 : pm.scrape_times.length ≤ pm.window_size)
    (h5 : pm.success_history.length ≤ pm.window_size) :
    0 ≤ pm2.successful_requests ∧
    pm2.successful_requests ≤ pm2.total_requests ∧
    pm2.scrape_times.length = pm2.success_history.length ∧
    pm2.scrape_times.length ≤ pm2.window_size ∧
    pm2.success_history.length ≤ pm2.window_size := by
  cases hs with
  | add d b =>
    refine ⟨?_, ?_, ?_, ?_, ?_⟩
    · show 0 ≤ pm.successful_requests + (if b then 1 else 0)
      cases b <;> simp <;> omega
    · show pm.successful_requests + (if b then 1 else 0) ≤ pm.total_requests + 1
      cases b <;> simp <;> omega
    · show (dequeAppend pm.window_size pm.scrape_times d).length =
        (dequeAppend pm.window_size pm.success_history b).length
      rw [dequeAppend_length, dequeAppend_length, h3]
    · show (dequeAppend pm.window_size pm.scrape_times d).length ≤ pm.window_size
      rw [dequeAppend_length]
      omega
    · show (dequeAppend pm.window_size pm.success_history b).length ≤ pm.window_size
      rw [dequeAppend_length]
      omega
  | stats now =>
    obtain ⟨hw, hst, hsh, htot, hsucc⟩ := get_stats_snd_fields pm now
    exact ⟨by rw [hsucc]; exact h1, by rw [hsucc, htot]; exact h2,
      by rw [hst, hsh]; exact h3, by rw [hst, hw]; exact h4,
      by rw [hsh, hw]; exact h5⟩
  | statsDict now =>
    obtain ⟨hw, hst, hsh, htot, hsucc⟩ := get_stats_snd_fields pm now
    have hd : (get_stats_dict pm now).2 = (get_stats pm now).2 := rfl
    rw [hd]
    exact ⟨by rw [hsucc]; exact h1, by rw [hsucc, htot]; exact h2,
      by rw [hst, hsh]; exact h3, by rw [hst, hw]; exact h4,
      by rw [hsh, hw]; exact h5⟩
  | reset now =>
    exact ⟨le_refl 0, le_refl 0, rfl, by simp [resetMonitor], by simp [resetMonitor]⟩

/-- C10: on every monitor state reachable from a fresh monitor by
`add_scrape`, `get_stats`, `get_stats_dict` and `reset` calls, the lifetime
counters satisfy `0 <= successful_requests <= total_requests` and the two
sliding windows have equal length, each at most `window_size`. -/
theorem monitor_invariant (w : Nat) (t0 : Rat) (pm : PerformanceMonitor)
    (h : Relation.ReflTransGen PMStep (PerformanceMonitor.init w t0) pm) :
    0 ≤ pm.successful_requests ∧
    pm.successful_requests ≤ pm.total_requests ∧
    pm.scrape_times.length = pm.success_history.length ∧
    pm.scrape_times.length ≤ pm.window_size ∧
    pm.success_history.length ≤ pm.window_size := by
  induction h with
  | refl =>
    exact ⟨le_refl 0, le_refl 0, rfl, by simp [PerformanceMonitor.init],
      by simp [PerformanceMonitor.init]⟩
  | tail hsteps hstep ih =>
    exact pmStep_preserves hstep ih.1 ih.2.1 ih.2.2.1 ih.2.2.2.1 ih.2.2.2.2

/-- Witness for `monitor_invariant` at a fresh monitor and the empty
trace. -/
theorem monitor_invariant_witness :
    0 ≤ (PerformanceMonitor.init 100 0).successful_requests ∧
    (PerformanceMonitor.init 100 0).successful_requests ≤
      (PerformanceMonitor.init 100 0).total_requests ∧
    (PerformanceMonitor.init 100 0).scrape_times.length =
      (PerformanceMonitor.init 100 0).success_history.length ∧
    (PerformanceMonitor.init 100 0).scrape_times.length ≤
      (PerformanceMonitor.init 100 0).window_size ∧
    (PerformanceMonitor.init 100 0).success_history.length ≤
      (PerformanceMonitor.init 100 0).window_size :=
  monitor_invariant 100 0 (PerformanceMonitor.init 100 0)
    Relation.ReflTransGen.refl

end GoogleAdsScraper
